import Mathlib

/-!
Verification development for the `S7PCIEHOST` module
(`litepcie/host/s7pciehost.py`): a shallow embedding of its
configuration model (construction-time validation, region bookkeeping,
and the pre-synthesis Tcl command emission of `add_sources`), together
with small models of the clock-domain-crossing primitives it
instantiates, and theorems about the specified properties.
-/

set_option autoImplicit false
set_option maxRecDepth 100000

namespace S7PCIE

/-- A memory decode window: base address (`origin`) and `size`,
as used for the ECAM and MMIO regions. -/
structure Region where
  origin : Nat
  size   : Nat
deriving DecidableEq, Repr

/-- A configuration-option value: Python ints or strings, as stored in
the `configs` dictionaries of `add_sources`. -/
inductive CfgVal where
  | I : Nat → CfgVal
  | S : String → CfgVal
deriving DecidableEq, Repr

/-- `str(value)`: rendering of a configuration value into the Tcl line. -/
def CfgVal.render : CfgVal → String
  | .I n => toString n
  | .S s => s

/-- Fuel-based lowercase hexadecimal digit list of `n` (most significant
first), mirroring Python's `%x`. Fuel `n+1` always suffices since the
argument strictly decreases under division by 16. -/
def hexRepAux : Nat → Nat → List Char → List Char
  | 0, _, acc => acc
  | fuel+1, n, acc =>
    if n < 16 then Nat.digitChar n :: acc
    else hexRepAux fuel (n / 16) (Nat.digitChar (n % 16) :: acc)

/-- Lowercase hexadecimal digits of `n`, most significant first. -/
def hexRep (n : Nat) : List Char :=
  hexRepAux (n + 1) n []

/-- Python `f"{n:08x}"`: lowercase hexadecimal, zero-padded on the left
to a minimum width of 8 digits. -/
def hexPad8 (n : Nat) : String :=
  String.mk (List.replicate (8 - (hexRep n).length) '0' ++ hexRep n)

/-- `f"0x{n:08x}"`. -/
def hex8 (n : Nat) : String :=
  "0x" ++ hexPad8 n

/-- Record of one `add_resync` call: a `MultiReg` synchronizer of
`stages` registers (migen default 2) into clock domain `odomain`
for the named single-bit signal. -/
structure Resync where
  sig     : String
  stages  : Nat
  odomain : String
deriving DecidableEq, Repr

/-- The configuration state of a constructed `S7PCIEHOST` instance:
the fields set by `__init__` (after defaulting and validation) that
`update_regions` and `add_sources` read, plus the identifier widths of
the PCIe-domain AXI interfaces built at lines 87-89 and the list of
resynchronizers registered via `add_resync`. -/
structure HostState where
  nlanes                 : Nat
  data_width             : Nat
  id_width               : Nat
  pcie_data_width        : Nat
  pcie_id_width          : Nat
  pcie_ecam              : Option Region
  pcie_mmio              : Option Region
  max_link_speed         : String
  refclk_freq            : Nat
  axi_mmio_pcie_id_width : Nat
  axi_dma_pcie_id_width  : Nat
  resyncs                : List Resync
deriving DecidableEq, Repr

/-- `S7PCIEHOST.__init__`: `nlanes` is the number of TX pads; the
hard-core-side widths default to the chip-facing ones when `None`;
the four `assert` statements run in source order; on success the
configuration state is returned. The PCIe-domain AXI interfaces are
built with `id_width` (MMIO) and `0` (DMA), and the three status
signals are routed through `add_resync(_, "sys")` (`MultiReg`,
default 2 stages). -/
def init (tx_p_count data_width id_width : Nat)
    (pcie_data_width_arg pcie_id_width_arg : Option Nat)
    (pcie_ecam pcie_mmio : Option Region)
    (max_link_speed : String) (refclk_freq : Nat) :
    Except String HostState :=
  let pcie_data_width := pcie_data_width_arg.getD data_width
  let pcie_id_width   := pcie_id_width_arg.getD id_width
  let nlanes := tx_p_count
  if nlanes ∈ [1, 2, 4, 8] then
    if data_width ∈ [64, 128] then
      if pcie_data_width ∈ [64, 128] then
        if refclk_freq ∈ [100000000, 125000000, 250000000] then
          .ok {
            nlanes                 := nlanes
            data_width             := data_width
            id_width               := id_width
            pcie_data_width        := pcie_data_width
            pcie_id_width          := pcie_id_width
            pcie_ecam              := pcie_ecam
            pcie_mmio              := pcie_mmio
            max_link_speed         := max_link_speed
            refclk_freq            := refclk_freq
            axi_mmio_pcie_id_width := id_width
            axi_dma_pcie_id_width  := 0
            resyncs                := [
              { sig := "pcie_linkup",    stages := 2, odomain := "sys" },
              { sig := "pcie_mmcm_lock", stages := 2, odomain := "sys" },
              { sig := "ev_irq",         stages := 2, odomain := "sys" }]
          }
        else .error "refclk_freq not in [100e6, 125e6, 250e6]"
      else .error "pcie_data_width not in [64, 128]"
    else .error "data_width not in [64, 128]"
  else .error "nlanes not in [1, 2, 4, 8]"

/-- `S7PCIEHOST.update_regions(ecam, mmio)`: replaces the stored ECAM
and MMIO regions with the given values. -/
def updateRegions (st : HostState) (ecam mmio : Option Region) : HostState :=
  { st with pcie_ecam := ecam, pcie_mmio := mmio }

/-- The `conv_ctl` IP configuration dictionary (insertion order). -/
def convCtlCfg : List (String × CfgVal) :=
  [("ID_WIDTH",               .I 0),
   ("DATA_WIDTH",             .I 32),
   ("PROTOCOL",               .S "AXI4LITE"),
   ("SYNCHRONIZATION_STAGES", .I 2)]

/-- The `conv_mmio` IP configuration dictionary. -/
def convMmioCfg (st : HostState) : List (String × CfgVal) :=
  [("ID_WIDTH",               .S (toString st.pcie_id_width)),
   ("DATA_WIDTH",             .S (toString st.pcie_data_width)),
   ("PROTOCOL",               .S "AXI4"),
   ("SYNCHRONIZATION_STAGES", .I 2)]

/-- The `conv_dma` IP configuration dictionary. -/
def convDmaCfg (st : HostState) : List (String × CfgVal) :=
  [("ID_WIDTH",               .S (toString st.pcie_id_width)),
   ("DATA_WIDTH",             .S (toString st.pcie_data_width)),
   ("PROTOCOL",               .S "AXI4"),
   ("SYNCHRONIZATION_STAGES", .I 2)]

/-- The `host` (hard-core `axi_pcie`) IP configuration dictionary,
built from the ECAM and MMIO regions and the link parameters. -/
def hostCfg (st : HostState) (ecam mmio : Region) : List (String × CfgVal) :=
  [("AXIBAR2PCIEBAR_0",            .S (hex8 mmio.origin)),
   ("AXIBAR_0",                    .S (hex8 mmio.origin)),
   ("AXIBAR_HIGHADDR_0",           .S (hex8 (mmio.origin + mmio.size - 1))),
   ("AXIBAR_NUM",                  .I 1),
   ("BAR0_SCALE",                  .S "Gigabytes"),
   ("BAR0_SIZE",                   .I 4),
   ("BAR_64BIT",                   .S "true"),
   ("BASEADDR",                    .S (hex8 ecam.origin)),
   ("HIGHADDR",                    .S (hex8 (ecam.origin + ecam.size - 1))),
   ("CLASS_CODE",                  .S "0x060400"),
   ("ENABLE_CLASS_CODE",           .S "true"),
   ("BASE_CLASS_MENU",             .S "Bridge_device"),
   ("SUB_CLASS_INTERFACE_MENU",    .S "PCI_to_PCI_bridge"),
   ("NO_OF_LANES",                 .S ("X" ++ toString st.nlanes)),
   ("MAX_LINK_SPEED",              .S st.max_link_speed),
   ("REF_CLK_FREQ",                .S (toString (st.refclk_freq / 1000000) ++ "_MHz")),
   ("DEVICE_ID",                   .S "0x7111"),
   ("INCLUDE_BAROFFSET_REG",       .S "false"),
   ("INCLUDE_RC",                  .S "Root_Port_of_PCI_Express_Root_Complex"),
   ("S_AXI_SUPPORTS_NARROW_BURST", .S "true"),
   ("S_AXI_ID_WIDTH",              .S (toString st.pcie_id_width)),
   ("S_AXI_DATA_WIDTH",            .S (toString st.pcie_data_width)),
   ("M_AXI_DATA_WIDTH",            .S (toString st.pcie_data_width)),
   ("COMP_TIMEOUT",                .S "50ms"),
   ("rp_bar_hide",                 .S "true")]

/-- The `configs` dictionary of `add_sources`, in insertion order:
name, `ip_type`, configuration entries. -/
def configsList (st : HostState) (ecam mmio : Region) :
    List (String × String × List (String × CfgVal)) :=
  [("conv_ctl",  "axi_clock_converter", convCtlCfg),
   ("conv_mmio", "axi_clock_converter", convMmioCfg st),
   ("conv_dma",  "axi_clock_converter", convDmaCfg st),
   ("host",      "axi_pcie",            hostCfg st ecam mmio)]

/-- The Tcl lines appended for one entry of `configs`: create the IP,
bind it, set the property dictionary entry by entry, generate its
targets and synthesize it, then a blank line. -/
def tclBlock (name ipType : String) (cfg : List (String × CfgVal)) : List String :=
  ["create_ip -vendor xilinx.com -name " ++ ipType ++ " -module_name pcie_" ++ name ++ "_s7",
   "set obj [get_ips pcie_" ++ name ++ "_s7]",
   "set_property -dict [list \\"]
  ++ cfg.map (fun p => "CONFIG." ++ p.1 ++ " \x7b\x7b" ++ p.2.render ++ "\x7d\x7d \\")
  ++ ["] $obj",
      "generate_target all $obj",
      "synth_ip $obj",
      ""]

/-- The `ip_tcl` list built by the generation loop of `add_sources`. -/
def ipTcl (st : HostState) (ecam mmio : Region) : List String :=
  (configsList st ecam mmio).foldl
    (fun acc c => acc ++ tclBlock c.1 c.2.1 c.2.2) []

/-- `S7PCIEHOST.add_sources`: asserts that both regions are present
(in source order: ECAM first), generates the Tcl command list, and
appends it to the platform's pre-synthesis command list. -/
def addSources (st : HostState) (pre_synthesis_commands : List String) :
    Except String (List String) :=
  match st.pcie_ecam with
  | none => .error "No ECAM region provided"
  | some ecam =>
    match st.pcie_mmio with
    | none => .error "No MMIO region provided"
    | some mmio => .ok (pre_synthesis_commands ++ ipTcl st ecam mmio)

/-- State of the two flip-flops of the `AsyncResetSynchronizer`
primitive instantiated at line 80. Modelled from the spec: the
primitive itself lives in the external migen library; per the spec it
asserts its output asynchronously whenever the reset input holds and
releases it only after two clean clock edges. -/
structure ARSState where
  r1 : Bool
  r2 : Bool
deriving DecidableEq, Repr

/-- One clock edge of the asynchronous-assert / synchronous-release
reset synchronizer: an active input sets both registers; otherwise a
zero shifts in. -/
def ARSState.step (s : ARSState) (input : Bool) : ARSState :=
  if input then ⟨true, true⟩ else ⟨false, s.r1⟩

/-- Output of the reset synchronizer: asserted asynchronously whenever
the input holds, otherwise the value of the last register. -/
def ARSState.out (s : ARSState) (input : Bool) : Bool :=
  input || s.r2

/-- The reset condition fed to the PCIe-domain reset synchronizer at
line 80: `ResetSignal("sys") | (~pcie_mmcm_lock) | (~vadj_pgood)`. -/
def pcieRstInput (sysRst pcie_mmcm_lock vadj_pgood : Bool) : Bool :=
  sysRst || !pcie_mmcm_lock || !vadj_pgood

/-- The PCIe clock domain's reset: output of the reset synchronizer
driven by `pcieRstInput`. -/
def pcieRst (s : ARSState) (sysRst pcie_mmcm_lock vadj_pgood : Bool) : Bool :=
  s.out (pcieRstInput sysRst pcie_mmcm_lock vadj_pgood)

/-- Line 81: `cd_pcie_ctl.rst.eq(ResetSignal("pcie"))` — the control
domain's reset is combinationally tied to the PCIe domain's reset. -/
def pcieCtlRst (s : ARSState) (sysRst pcie_mmcm_lock vadj_pgood : Bool) : Bool :=
  pcieRst s sysRst pcie_mmcm_lock vadj_pgood

/-- The two registers of a `MultiReg` synchronizer (migen default:
2 stages) clocked in the destination domain. Modelled from the spec:
the primitive lives in the external migen library; per the spec it is
a small pipeline of synchronizing registers. -/
structure MR2 where
  s1 : Bool
  s2 : Bool
deriving DecidableEq, Repr

/-- One destination-clock edge of the 2-stage synchronizer: the input
enters the first register, the first shifts into the second. -/
def MR2.step (s : MR2) (input : Bool) : MR2 :=
  ⟨input, s.s1⟩

/-- Output of the 2-stage synchronizer: the second register. -/
def MR2.out (s : MR2) : Bool :=
  s.s2

/-- The byte capacity a `BAR0_SCALE`/`BAR0_SIZE` pair denotes in the
vendor IP catalog. Follows the spec's words (region maps to a BAR of
that capacity); used to compare the emitted parameters against the
MMIO region's actual size. -/
def barBytes (scale : String) (size : Nat) : Nat :=
  if scale = "Kilobytes" then size * 2 ^ 10
  else if scale = "Megabytes" then size * 2 ^ 20
  else if scale = "Gigabytes" then size * 2 ^ 30
  else 0

/-- Classifier for the claim about the per-instance command pattern:
keeps the create / set-property / generate / synthesize commands. -/
def tclPhase (l : String) : Bool :=
  List.isPrefixOf "create_ip".data l.data
  || List.isPrefixOf "set_property".data l.data
  || l == "generate_target all $obj"
  || l == "synth_ip $obj"

/-- The ECAM region of the end-to-end scenario. -/
def exEcam : Region := { origin := 0x0, size := 0x1000000 }

/-- The MMIO region of the end-to-end scenario. -/
def exMmio : Region := { origin := 0x40000000, size := 0x10000000 }

/-- The configuration state of the end-to-end scenario: 4 lanes,
data_width 64, id_width 4, defaults for the hard-core-side widths,
"2.5_GT/s", 100 MHz reference clock, regions installed via
`update_regions`. -/
def exState : HostState :=
  { nlanes                 := 4
    data_width             := 64
    id_width               := 4
    pcie_data_width        := 64
    pcie_id_width          := 4
    pcie_ecam              := some exEcam
    pcie_mmio              := some exMmio
    max_link_speed         := "2.5_GT/s"
    refclk_freq            := 100000000
    axi_mmio_pcie_id_width := 4
    axi_dma_pcie_id_width  := 0
    resyncs                := [
      { sig := "pcie_linkup",    stages := 2, odomain := "sys" },
      { sig := "pcie_mmcm_lock", stages := 2, odomain := "sys" },
      { sig := "ev_irq",         stages := 2, odomain := "sys" }] }

/-- The configuration parameters that the Tcl emission reads. -/
def emitParams (st : HostState) :
    Nat × Nat × Nat × Option Region × Option Region × String × Nat :=
  (st.nlanes, st.pcie_data_width, st.pcie_id_width,
   st.pcie_ecam, st.pcie_mmio, st.max_link_speed, st.refclk_freq)

theorem hexRepAux_length_le (k : Nat) :
    ∀ (fuel n : Nat) (acc : List Char), 0 < k → n < 16 ^ k → n < fuel →
      (hexRepAux fuel n acc).length ≤ k + acc.length := by
  induction k with
  | zero => intro fuel n acc hk _ _; exact absurd hk (by omega)
  | succ k ih =>
    intro fuel n acc _ hnk hfuel
    cases fuel with
    | zero => omega
    | succ f =>
      rw [hexRepAux]
      by_cases hlt : n < 16
      · simp [hlt]
        omega
      · rw [if_neg hlt]
        have hk0 : 0 < k := by
          by_contra hk
          have : k = 0 := by omega
          subst this
          simp at hnk
          omega
        have hdiv : n / 16 < 16 ^ k := by
          rw [Nat.div_lt_iff_lt_mul (by norm_num)]
          calc n < 16 ^ (k + 1) := hnk
            _ = 16 ^ k * 16 := by rw [pow_succ]
        have hfd : n / 16 < f := by
          have h1 : n / 16 < n := Nat.div_lt_self (by omega) (by norm_num)
          omega
        have h := ih f (n / 16) (Nat.digitChar (n % 16) :: acc) hk0 hdiv hfd
        simp at h ⊢
        omega

theorem hexRep_length_le (n : Nat) (h : n < 2 ^ 32) : (hexRep n).length ≤ 8 := by
  have h16 : n < 16 ^ 8 := by
    have : (16 : Nat) ^ 8 = 2 ^ 32 := by norm_num
    omega
  have := hexRepAux_length_le 8 (n + 1) n [] (by omega) h16 (Nat.lt_succ_self n)
  simpa [hexRep] using this

theorem hexPad8_length (n : Nat) (h : n < 2 ^ 32) : (hexPad8 n).length = 8 := by
  have hle := hexRep_length_le n h
  simp [hexPad8, String.length]
  omega

theorem ipTcl_eq_blocks (st : HostState) (ecam mmio : Region) :
    ipTcl st ecam mmio =
      tclBlock "conv_ctl" "axi_clock_converter" convCtlCfg
      ++ tclBlock "conv_mmio" "axi_clock_converter" (convMmioCfg st)
      ++ tclBlock "conv_dma" "axi_clock_converter" (convDmaCfg st)
      ++ tclBlock "host" "axi_pcie" (hostCfg st ecam mmio) := by
  simp [ipTcl, configsList]

theorem ipTcl_ne_nil (st : HostState) (ecam mmio : Region) :
    ipTcl st ecam mmio ≠ [] := by
  rw [ipTcl_eq_blocks]
  simp [tclBlock]

theorem resyncs_all_sys :
    ∀ r ∈ [Resync.mk "pcie_linkup" 2 "sys",
           Resync.mk "pcie_mmcm_lock" 2 "sys",
           Resync.mk "ev_irq" 2 "sys"],
      r.odomain = "sys" ∧ 2 ≤ r.stages := by
  decide

/-- C1: for lanes=4, data_width=64, refclk_freq=100e6,
max_link_speed "2.5_GT/s", ECAM origin 0x0 size 0x1000000 and MMIO
origin 0x40000000 size 0x10000000 (installed via `update_regions`),
the emitted hard-core configuration carries exactly
NO_OF_LANES "X4", REF_CLK_FREQ "100_MHz", BASEADDR "0x00000000",
HIGHADDR "0x00ffffff", AXIBAR_0 "0x40000000" and
AXIBAR_HIGHADDR_0 "0x4fffffff"; and in general the high-address
parameter of a region with origin O and size S (S > 0, O+S-1 within
32 bits) is O+S-1 rendered as zero-padded 8-digit lowercase
hexadecimal. -/
theorem C1_end_to_end_config :
    (init 4 64 4 none none none none "2.5_GT/s" 100000000
        = .ok (updateRegions exState none none)
      ∧ updateRegions (updateRegions exState none none) (some exEcam) (some exMmio)
        = exState
      ∧ (hostCfg exState exEcam exMmio).lookup "NO_OF_LANES" = some (.S "X4")
      ∧ (hostCfg exState exEcam exMmio).lookup "REF_CLK_FREQ" = some (.S "100_MHz")
      ∧ (hostCfg exState exEcam exMmio).lookup "BASEADDR" = some (.S "0x00000000")
      ∧ (hostCfg exState exEcam exMmio).lookup "HIGHADDR" = some (.S "0x00ffffff")
      ∧ (hostCfg exState exEcam exMmio).lookup "AXIBAR_0" = some (.S "0x40000000")
      ∧ (hostCfg exState exEcam exMmio).lookup "AXIBAR_HIGHADDR_0" = some (.S "0x4fffffff"))
    ∧ (∀ (st : HostState) (ecam mmio : Region),
        0 < ecam.size → ecam.origin + ecam.size - 1 < 2 ^ 32 →
        0 < mmio.size → mmio.origin + mmio.size - 1 < 2 ^ 32 →
        (hostCfg st ecam mmio).lookup "HIGHADDR"
            = some (.S ("0x" ++ hexPad8 (ecam.origin + ecam.size - 1)))
          ∧ (hostCfg st ecam mmio).lookup "AXIBAR_HIGHADDR_0"
            = some (.S ("0x" ++ hexPad8 (mmio.origin + mmio.size - 1)))
          ∧ (hexPad8 (ecam.origin + ecam.size - 1)).length = 8
          ∧ (hexPad8 (mmio.origin + mmio.size - 1)).length = 8) := by
  constructor
  · exact ⟨rfl, rfl, by decide, by decide, by decide, by decide, by decide, by decide⟩
  · intro st ecam mmio _ he _ hm
    exact ⟨rfl, rfl, hexPad8_length _ he, hexPad8_length _ hm⟩

/-- Witness for C1: the general high-address clause instantiated at the
end-to-end scenario's regions. -/
theorem C1_end_to_end_config_witness :
    (hostCfg exState exEcam exMmio).lookup "HIGHADDR"
        = some (.S ("0x" ++ hexPad8 (exEcam.origin + exEcam.size - 1)))
      ∧ (hostCfg exState exEcam exMmio).lookup "AXIBAR_HIGHADDR_0"
        = some (.S ("0x" ++ hexPad8 (exMmio.origin + exMmio.size - 1)))
      ∧ (hexPad8 (exEcam.origin + exEcam.size - 1)).length = 8
      ∧ (hexPad8 (exMmio.origin + exMmio.size - 1)).length = 8 :=
  C1_end_to_end_config.2 exState exEcam exMmio
    (by decide) (by decide) (by decide) (by decide)

/-- C2: `add_sources` fails with "No ECAM region provided" when the
ECAM region is missing, with "No MMIO region provided" when the MMIO
region is missing, and after `update_regions` with non-null regions it
succeeds and appends a non-empty command sequence to the platform's
pre-synthesis command list. -/
theorem C2_region_preconditions :
    (∀ (st : HostState) (cmds : List String), st.pcie_ecam = none →
        addSources st cmds = .error "No ECAM region provided")
    ∧ (∀ (st : HostState) (cmds : List String) (e : Region),
        st.pcie_ecam = some e → st.pcie_mmio = none →
        addSources st cmds = .error "No MMIO region provided")
    ∧ (∀ (st : HostState) (cmds : List String) (e m : Region),
        ∃ tcl : List String, tcl ≠ [] ∧
          addSources (updateRegions st (some e) (some m)) cmds = .ok (cmds ++ tcl)) := by
  refine ⟨?_, ?_, ?_⟩
  · intro st cmds h
    simp [addSources, h]
  · intro st cmds e he hm
    simp [addSources, he, hm]
  · intro st cmds e m
    exact ⟨ipTcl (updateRegions st (some e) (some m)) e m,
           ipTcl_ne_nil _ e m, rfl⟩

/-- Witness for C2: at the end-to-end scenario state with its regions
removed / installed. -/
theorem C2_region_preconditions_witness :
    addSources (updateRegions exState none none) [] = .error "No ECAM region provided"
    ∧ addSources (updateRegions exState (some exEcam) none) [] = .error "No MMIO region provided"
    ∧ ∃ tcl : List String, tcl ≠ [] ∧
        addSources (updateRegions exState (some exEcam) (some exMmio)) [] = .ok ([] ++ tcl) :=
  ⟨C2_region_preconditions.1 (updateRegions exState none none) [] rfl,
   C2_region_preconditions.2.1 (updateRegions exState (some exEcam) none) [] exEcam rfl rfl,
   C2_region_preconditions.2.2 exState [] exEcam exMmio⟩

/-- C3: construction succeeds exactly when the lane count is in
\x7b1,2,4,8\x7d, both data widths are in \x7b64,128\x7d, and the
reference-clock frequency is in \x7b100e6,125e6,250e6\x7d Hz; any
value outside those sets makes construction fail. -/
theorem C3_construction_validation :
    ∀ (tx data id pdw piw : Nat) (ecam mmio : Option Region)
      (spd : String) (clk : Nat),
      (init tx data id (some pdw) (some piw) ecam mmio spd clk).isOk = true
      ↔ ((tx = 1 ∨ tx = 2 ∨ tx = 4 ∨ tx = 8)
         ∧ (data = 64 ∨ data = 128)
         ∧ (pdw = 64 ∨ pdw = 128)
         ∧ (clk = 100000000 ∨ clk = 125000000 ∨ clk = 250000000)) := by
  intro tx data id pdw piw ecam mmio spd clk
  simp only [init, Option.getD_some]
  split_ifs with h1 h2 h3 h4 <;> simp_all [Except.isOk, Except.toBool]

/-- Counterexample for C4: at the end-to-end scenario's MMIO region
(origin 0x40000000, size 0x10000000 > 0), the emitted BAR parameters
are BAR0_SCALE "Gigabytes" with BAR0_SIZE 4 — a 4 GiB BAR — which
does not correspond to the region's actual size 0x10000000, so the
BAR size/scale pair is not chosen from the region. -/
theorem C4_bar_counterexample :
    0 < exMmio.size
    ∧ (hostCfg exState exEcam exMmio).lookup "BAR0_SCALE" = some (.S "Gigabytes")
    ∧ (hostCfg exState exEcam exMmio).lookup "BAR0_SIZE" = some (.I 4)
    ∧ (hostCfg exState exEcam exMmio).lookup "BAR_64BIT" = some (.S "true")
    ∧ barBytes "Gigabytes" 4 ≠ exMmio.size := by
  exact ⟨by decide, by decide, by decide, by decide, by decide⟩

/-- C4 (amended): for every MMIO region, the emitted BAR parameters
are the fixed constants BAR0_SCALE "Gigabytes", BAR0_SIZE 4 and
BAR_64BIT "true" — a single 64-bit BAR of 4 GiB — independent of the
region's origin and size. -/
theorem C4_bar_constant :
    ∀ (st : HostState) (ecam mmio : Region),
      (hostCfg st ecam mmio).lookup "BAR0_SCALE" = some (.S "Gigabytes")
      ∧ (hostCfg st ecam mmio).lookup "BAR0_SIZE" = some (.I 4)
      ∧ (hostCfg st ecam mmio).lookup "BAR_64BIT" = some (.S "true")
      ∧ barBytes "Gigabytes" 4 = 2 ^ 32 := by
  intro st ecam mmio
  exact ⟨rfl, rfl, rfl, by decide⟩

/-- C5: the PCIe-domain DMA AXI interface is built with identifier
width 0 (line 89), but the DMA clock-converter IP configuration is
emitted with ID_WIDTH "4" — `pcie_id_width`, identical to the MMIO
path's ID_WIDTH — which is not consistent with width 0: the code
contradicts its own interface construction. Evaluation at the
failing input `pcie_id_width = 4`. -/
theorem C5_dma_id_width_mismatch :
    exState.pcie_id_width = 4
    ∧ exState.axi_dma_pcie_id_width = 0
    ∧ (convDmaCfg exState).lookup "ID_WIDTH" = some (.S "4")
    ∧ (convMmioCfg exState).lookup "ID_WIDTH" = some (.S "4")
    ∧ (convDmaCfg exState).lookup "ID_WIDTH"
        ≠ some (.S (toString exState.axi_dma_pcie_id_width)) := by
  exact ⟨by decide, by decide, by decide, by decide, by decide⟩

/-- C6: when both regions are present, `add_sources` appends to the
pre-synthesis command list the concatenation of one command block per
IP instance, the three bridge converters first and the hard core
last; and (at the end-to-end scenario) the create / set-property /
generate / synthesize commands occur exactly once per instance, in
that order within each block. -/
theorem C6_command_sequence :
    (∀ (st : HostState) (cmds : List String) (e m : Region),
        st.pcie_ecam = some e → st.pcie_mmio = some m →
        addSources st cmds = .ok (cmds ++
          (tclBlock "conv_ctl" "axi_clock_converter" convCtlCfg
           ++ tclBlock "conv_mmio" "axi_clock_converter" (convMmioCfg st)
           ++ tclBlock "conv_dma" "axi_clock_converter" (convDmaCfg st)
           ++ tclBlock "host" "axi_pcie" (hostCfg st e m))))
    ∧ (ipTcl exState exEcam exMmio).filter tclPhase =
        ["create_ip -vendor xilinx.com -name axi_clock_converter -module_name pcie_conv_ctl_s7",
         "set_property -dict [list \\",
         "generate_target all $obj",
         "synth_ip $obj",
         "create_ip -vendor xilinx.com -name axi_clock_converter -module_name pcie_conv_mmio_s7",
         "set_property -dict [list \\",
         "generate_target all $obj",
         "synth_ip $obj",
         "create_ip -vendor xilinx.com -name axi_clock_converter -module_name pcie_conv_dma_s7",
         "set_property -dict [list \\",
         "generate_target all $obj",
         "synth_ip $obj",
         "create_ip -vendor xilinx.com -name axi_pcie -module_name pcie_host_s7",
         "set_property -dict [list \\",
         "generate_target all $obj",
         "synth_ip $obj"] := by
  constructor
  · intro st cmds e m he hm
    simp [addSources, he, hm, ipTcl_eq_blocks]
  · decide

/-- Witness for C6: the block decomposition at the end-to-end
scenario state. -/
theorem C6_command_sequence_witness :
    addSources exState [] = .ok ([] ++
      (tclBlock "conv_ctl" "axi_clock_converter" convCtlCfg
       ++ tclBlock "conv_mmio" "axi_clock_converter" (convMmioCfg exState)
       ++ tclBlock "conv_dma" "axi_clock_converter" (convDmaCfg exState)
       ++ tclBlock "host" "axi_pcie" (hostCfg exState exEcam exMmio))) :=
  C6_command_sequence.1 exState [] exEcam exMmio rfl rfl

/-- C7: the emitted command sequence is a function of the
configuration parameters alone — two states agreeing on them yield
identical `add_sources` output — and `update_regions` is idempotent:
applying it twice with the same regions yields the same emission as
applying it once. -/
theorem C7_determinism_idempotence :
    (∀ (st₁ st₂ : HostState) (cmds : List String),
        emitParams st₁ = emitParams st₂ →
        addSources st₁ cmds = addSources st₂ cmds)
    ∧ (∀ (st : HostState) (e m : Option Region) (cmds : List String),
        addSources (updateRegions (updateRegions st e m) e m) cmds
          = addSources (updateRegions st e m) cmds) := by
  constructor
  · intro st₁ st₂ cmds h
    cases st₁
    cases st₂
    simp only [emitParams, Prod.mk.injEq] at h
    obtain ⟨h1, h2, h3, h4, h5, h6, h7⟩ := h
    subst h1 h2 h3 h4 h5 h6 h7
    rfl
  · intro st e m cmds
    rfl

/-- Witness for C7: two states differing only in the chip-facing
`data_width` (a parameter the emission does not read) produce the
same output. -/
theorem C7_determinism_idempotence_witness :
    addSources exState ["x"] = addSources { exState with data_width := 128 } ["x"] :=
  C7_determinism_idempotence.1 exState { exState with data_width := 128 } ["x"] rfl

/-- C8: the PCIe domain's reset is asserted whenever
`system_reset OR NOT mmcm_lock OR NOT power_good` holds (asynchronous
assert), it is released only synchronously (two clean clock edges
after the condition clears, and not combinationally on the first
edge), and the `pcie_ctl` domain's reset equals the PCIe domain's
reset at all times. -/
theorem C8_reset_derivation :
    (∀ (s : ARSState) (sysRst lock pgood : Bool),
        (sysRst || !lock || !pgood) = true →
        pcieRst s sysRst lock pgood = true)
    ∧ (∀ (s : ARSState) (sysRst lock pgood : Bool),
        pcieCtlRst s sysRst lock pgood = pcieRst s sysRst lock pgood)
    ∧ (∀ s : ARSState, ((s.step false).step false).out false = false)
    ∧ ((ARSState.mk true true).step false).out false = true := by
  refine ⟨?_, ?_, ?_, rfl⟩
  · intro s sysRst lock pgood h
    simp [pcieRst, pcieRstInput, ARSState.out, h]
  · intro s sysRst lock pgood
    rfl
  · intro s
    rfl

/-- Witness for C8: the assertion clause at a concrete input with the
MMCM unlocked. -/
theorem C8_reset_derivation_witness :
    pcieRst (ARSState.mk false false) false false true = true :=
  C8_reset_derivation.1 (ARSState.mk false false) false false true (by decide)

/-- C9: every constructed instance routes its three single-bit status
signals — link-up, MMCM lock and the interrupt request — through a
2-stage (≥ 2 registers) flip-flop synchronizer into the "sys" clock
domain; and a level held stable at the synchronizer input across its
sampling edges is observed at its correct stable value after two
destination-clock edges (and stays correct on further edges, i.e.
within N = stages + 1 cycles). -/
theorem C9_status_resync :
    (∀ (tx data id : Nat) (pdw piw : Option Nat) (e m : Option Region)
       (spd : String) (clk : Nat) (st : HostState),
        init tx data id pdw piw e m spd clk = .ok st →
        st.resyncs.map Resync.sig = ["pcie_linkup", "pcie_mmcm_lock", "ev_irq"]
        ∧ ∀ r ∈ st.resyncs, r.odomain = "sys" ∧ 2 ≤ r.stages)
    ∧ (∀ (s : MR2) (v : Bool),
        ((s.step v).step v).out = v ∧ (((s.step v).step v).step v).out = v) := by
  constructor
  · intro tx data id pdw piw e m spd clk st h
    simp only [init] at h
    split_ifs at h
    · injection h with h'
      subst h'
      exact ⟨rfl, resyncs_all_sys⟩
  · intro s v
    exact ⟨rfl, rfl⟩

/-- Witness for C9: the structural clause at the end-to-end
scenario's construction parameters. -/
theorem C9_status_resync_witness :
    (updateRegions exState none none).resyncs.map Resync.sig
        = ["pcie_linkup", "pcie_mmcm_lock", "ev_irq"]
    ∧ ∀ r ∈ (updateRegions exState none none).resyncs,
        r.odomain = "sys" ∧ 2 ≤ r.stages :=
  C9_status_resync.1 4 64 4 none none none none "2.5_GT/s" 100000000
    (updateRegions exState none none) rfl

/-- C10: when `pcie_data_width` and `pcie_id_width` are omitted, they
default to the chip-facing `data_width` and `id_width`; the defaulted
data width is the one the constructor validated (so it lies in
\x7b64,128\x7d), and the defaulted values are the ones carried by the
bridge and hard-core IP configurations. -/
theorem C10_width_defaulting :
    ∀ (tx data id : Nat) (e m : Option Region) (spd : String) (clk : Nat)
      (st : HostState),
      init tx data id none none e m spd clk = .ok st →
      st.pcie_data_width = data
      ∧ st.pcie_id_width = id
      ∧ (data = 64 ∨ data = 128)
      ∧ (convMmioCfg st).lookup "ID_WIDTH" = some (.S (toString id))
      ∧ (convMmioCfg st).lookup "DATA_WIDTH" = some (.S (toString data))
      ∧ (convDmaCfg st).lookup "ID_WIDTH" = some (.S (toString id))
      ∧ (convDmaCfg st).lookup "DATA_WIDTH" = some (.S (toString data))
      ∧ (∀ ecam mmio : Region,
          (hostCfg st ecam mmio).lookup "S_AXI_ID_WIDTH" = some (.S (toString id))
          ∧ (hostCfg st ecam mmio).lookup "S_AXI_DATA_WIDTH" = some (.S (toString data))
          ∧ (hostCfg st ecam mmio).lookup "M_AXI_DATA_WIDTH" = some (.S (toString data))) := by
  intro tx data id e m spd clk st h
  simp only [init, Option.getD] at h
  split_ifs at h with h1 h2 h3
  · injection h with h'
    subst h'
    refine ⟨rfl, rfl, by simpa using h2, rfl, rfl, rfl, rfl, ?_⟩
    intro ecam mmio
    exact ⟨rfl, rfl, rfl⟩

/-- Witness for C10: the defaulting at the end-to-end scenario's
construction parameters. -/
theorem C10_width_defaulting_witness :
    (updateRegions exState none none).pcie_data_width = 64
    ∧ (updateRegions exState none none).pcie_id_width = 4
    ∧ ((64 : Nat) = 64 ∨ (64 : Nat) = 128)
    ∧ (convMmioCfg (updateRegions exState none none)).lookup "ID_WIDTH"
        = some (.S (toString (4 : Nat)))
    ∧ (convMmioCfg (updateRegions exState none none)).lookup "DATA_WIDTH"
        = some (.S (toString (64 : Nat)))
    ∧ (convDmaCfg (updateRegions exState none none)).lookup "ID_WIDTH"
        = some (.S (toString (4 : Nat)))
    ∧ (convDmaCfg (updateRegions exState none none)).lookup "DATA_WIDTH"
        = some (.S (toString (64 : Nat)))
    ∧ (∀ ecam mmio : Region,
        (hostCfg (updateRegions exState none none) ecam mmio).lookup "S_AXI_ID_WIDTH"
            = some (.S (toString (4 : Nat)))
        ∧ (hostCfg (updateRegions exState none none) ecam mmio).lookup "S_AXI_DATA_WIDTH"
            = some (.S (toString (64 : Nat)))
        ∧ (hostCfg (updateRegions exState none none) ecam mmio).lookup "M_AXI_DATA_WIDTH"
            = some (.S (toString (64 : Nat)))) :=
  C10_width_defaulting 4 64 4 none none "2.5_GT/s" 100000000
    (updateRegions exState none none) rfl

end S7PCIE
